import Mathlib

/-!
Verification of the Matchday integration (custom_components/matchday).

Shallow embedding of:
* `api.py`            — keyed API-Football client: `_request` error classification,
                        `validate_api_key`.
* `api_openligadb.py` — keyless OpenLigaDB client: `_normalize_fixture`, `_parse_utc`.
* `coordinator.py`    — `MatchdayCoordinator`: `_process_fixtures`,
                        `_adjust_poll_interval`, `_is_today`, `_extract_standing`,
                        `_async_update_data`.
* `const.py`          — status-code sets and scan intervals.

Python `datetime` values are modelled by `PyDateTime` (wall-clock fields plus an
optional UTC-offset, mirroring naive vs aware datetimes); `datetime.fromisoformat`
is modelled by an executable parser for the ISO-8601 profile the two providers
emit (`YYYY-MM-DD[THH:MM[:SS]][Z|±HH:MM]`, as accepted by Python ≥ 3.11).
-/

/-! ## Calendar arithmetic (model of Python datetime ordering / subtraction) -/

/-- Gregorian leap-year test. -/
def isLeapYear (y : Nat) : Bool :=
  (y % 4 == 0 && y % 100 != 0) || y % 400 == 0

/-- Number of days in a month (Gregorian). -/
def daysInMonth (y m : Nat) : Nat :=
  if m == 2 then (if isLeapYear y then 29 else 28)
  else if m == 4 || m == 6 || m == 9 || m == 11 then 30
  else 31

/-- Days from civil date to the proleptic-Gregorian epoch 1970-01-01
(Howard Hinnant's `days_from_civil` algorithm). -/
def daysFromCivil (y m d : Nat) : Int :=
  let yAdj : Int := if m ≤ 2 then (y : Int) - 1 else (y : Int)
  let era : Int := Int.fdiv yAdj 400
  let yoe : Int := yAdj - era * 400
  let mp : Int := ((m : Int) + 9) % 12
  let doy : Int := (153 * mp + 2) / 5 + (d : Int) - 1
  let doe : Int := yoe * 365 + yoe / 4 - yoe / 100 + doy
  era * 146097 + doe - 719468

/-- Model of a Python `datetime`: wall-clock fields plus an optional fixed UTC
offset in minutes (`none` = naive datetime, `some o` = aware with offset `o`). -/
structure PyDateTime where
  year : Nat
  month : Nat
  day : Nat
  hour : Nat
  minute : Nat
  second : Nat
  tzOffsetMinutes : Option Int
deriving DecidableEq, Repr

/-- Wall-clock seconds since the epoch, ignoring the offset. -/
def wallSeconds (dt : PyDateTime) : Int :=
  daysFromCivil dt.year dt.month dt.day * 86400
    + (dt.hour : Int) * 3600 + (dt.minute : Int) * 60 + (dt.second : Int)

/-- The instant (seconds since epoch, UTC) denoted by a datetime; a naive
datetime is read as UTC (every call site first applies `ensureAware`, the model
of `dt.replace(tzinfo=timezone.utc)` applied when `dt.tzinfo is None`). -/
def utcSeconds (dt : PyDateTime) : Int :=
  wallSeconds dt - (dt.tzOffsetMinutes.getD 0) * 60

/-- `if dt.tzinfo is None: dt = dt.replace(tzinfo=timezone.utc)`. -/
def ensureAware (dt : PyDateTime) : PyDateTime :=
  match dt.tzOffsetMinutes with
  | none => { dt with tzOffsetMinutes := some 0 }
  | some _ => dt

/-- Python `datetime.date()`: the wall-clock calendar date (in the datetime's
own zone — Python does not convert to UTC here). -/
def pyDate (dt : PyDateTime) : Nat × Nat × Nat :=
  (dt.year, dt.month, dt.day)

/-- The UTC calendar day that an instant (seconds since epoch) falls on,
as a day number (floor division — UTC days are exact 86400-second blocks). -/
def utcDayOfInstant (secs : Int) : Int :=
  Int.fdiv secs 86400

/-! ## ISO-8601 parsing (model of `datetime.fromisoformat`, Python ≥ 3.11) -/

/-- One decimal digit. -/
def digitVal (c : Char) : Option Nat :=
  if c.isDigit then some (c.toNat - 48) else none

/-- Exactly two digits. -/
def take2 : List Char → Option (Nat × List Char)
  | a :: b :: rest =>
    match digitVal a, digitVal b with
    | some x, some y => some (x * 10 + y, rest)
    | _, _ => none
  | _ => none

/-- Exactly four digits. -/
def take4 : List Char → Option (Nat × List Char)
  | a :: b :: c :: d :: rest =>
    match digitVal a, digitVal b, digitVal c, digitVal d with
    | some w, some x, some y, some z => some (w * 1000 + x * 100 + y * 10 + z, rest)
    | _, _, _, _ => none
  | _ => none

/-- Expect one specific character. -/
def expectChar (c : Char) : List Char → Option (List Char)
  | d :: rest => if d == c then some rest else none
  | [] => none

/-- Parse an optional trailing timezone: empty (naive), `Z`, or `±HH:MM`.
Returns the offset in minutes (`none` in the pair's first slot = naive). -/
def parseTz : List Char → Option (Option Int)
  | [] => some none
  | ['Z'] => some (some 0)
  | sign :: rest =>
    if sign == '+' || sign == '-' then
      match take2 rest with
      | some (h, rest₁) =>
        match expectChar ':' rest₁ with
        | some rest₂ =>
          match take2 rest₂ with
          | some (m, rest₃) =>
            if rest₃.isEmpty && h ≤ 23 && m ≤ 59 then
              let total : Int := (h : Int) * 60 + (m : Int)
              some (some (if sign == '-' then -total else total))
            else none
          | none => none
        | none => none
      | none => none
    else none

/-- Parse `HH:MM[:SS]` followed by an optional timezone. -/
def parseTime (y m d : Nat) : List Char → Option PyDateTime
  | cs =>
    match take2 cs with
    | some (hh, rest₁) =>
      match expectChar ':' rest₁ with
      | some rest₂ =>
        match take2 rest₂ with
        | some (mi, rest₃) =>
          let contSec : Option (Nat × List Char) :=
            match rest₃ with
            | ':' :: rest₄ =>
              match take2 rest₄ with
              | some (ss, rest₅) => some (ss, rest₅)
              | none => none
            | other => some (0, other)
          match contSec with
          | some (ss, rest₆) =>
            if hh ≤ 23 && mi ≤ 59 && ss ≤ 59 then
              match parseTz rest₆ with
              | some tz => some ⟨y, m, d, hh, mi, ss, tz⟩
              | none => none
            else none
          | none => none
        | none => none
      | none => none
    | none => none

/-- Model of `datetime.fromisoformat` on the profile both providers emit:
`YYYY-MM-DD`, optionally `[T ]HH:MM[:SS]`, optionally `Z` or `±HH:MM`.
Returns `none` on any malformed input (Python raises `ValueError`). -/
def fromisoformatChars (cs : List Char) : Option PyDateTime :=
  match take4 cs with
  | some (y, rest₁) =>
    match expectChar '-' rest₁ with
    | some rest₂ =>
      match take2 rest₂ with
      | some (m, rest₃) =>
        match expectChar '-' rest₃ with
        | some rest₄ =>
          match take2 rest₄ with
          | some (d, rest₅) =>
            if 1 ≤ m && m ≤ 12 && 1 ≤ d && d ≤ daysInMonth y m then
              match rest₅ with
              | [] => some ⟨y, m, d, 0, 0, 0, none⟩
              | sep :: rest₆ =>
                if sep == 'T' || sep == ' ' then parseTime y m d rest₆ else none
            else none
          | none => none
        | none => none
      | none => none
    | none => none
  | none => none

/-- `datetime.fromisoformat` on a string. -/
def fromisoformat (s : String) : Option PyDateTime :=
  fromisoformatChars s.data

/-! ## String helpers (models of Python string operations) -/

/-- Lexicographic `≤` on code-point lists — the order Python uses to compare
strings (`list.sort(key=...)` on the raw date strings). -/
def charsLe : List Char → List Char → Bool
  | [], _ => true
  | _ :: _, [] => false
  | a :: as, b :: bs =>
    if a.toNat < b.toNat then true
    else if a.toNat == b.toNat then charsLe as bs
    else false

/-- Python string `<=` (lexicographic by code point). -/
def strLe (a b : String) : Bool :=
  charsLe a.data b.data

theorem charsLe_cons {a b : Char} {as bs : List Char} :
    charsLe (a :: as) (b :: bs) = true ↔
      a.toNat < b.toNat ∨ (a.toNat = b.toNat ∧ charsLe as bs = true) := by
  by_cases h1 : a.toNat < b.toNat
  · simp [charsLe, h1]
  · by_cases h2 : a.toNat = b.toNat
    · simp [charsLe, h1, h2]
    · simp [charsLe, h1, h2]

theorem charsLe_total : ∀ as bs, charsLe as bs = true ∨ charsLe bs as = true
  | [], _ => Or.inl rfl
  | _ :: _, [] => Or.inr rfl
  | a :: as, b :: bs => by
    rcases Nat.lt_trichotomy a.toNat b.toNat with h | h | h
    · exact Or.inl (charsLe_cons.mpr (Or.inl h))
    · rcases charsLe_total as bs with ih | ih
      · exact Or.inl (charsLe_cons.mpr (Or.inr ⟨h, ih⟩))
      · exact Or.inr (charsLe_cons.mpr (Or.inr ⟨h.symm, ih⟩))
    · exact Or.inr (charsLe_cons.mpr (Or.inl h))

theorem charsLe_trans :
    ∀ as bs cs, charsLe as bs = true → charsLe bs cs = true → charsLe as cs = true
  | [], _, _ => fun _ _ => rfl
  | _ :: _, [], _ => fun h _ => by simp [charsLe] at h
  | _ :: _, _ :: _, [] => fun _ h => by simp [charsLe] at h
  | a :: as, b :: bs, c :: cs => fun h₁ h₂ => by
    rw [charsLe_cons] at h₁ h₂ ⊢
    rcases h₁ with h₁ | ⟨h₁e, h₁r⟩ <;> rcases h₂ with h₂ | ⟨h₂e, h₂r⟩
    · exact Or.inl (by omega)
    · exact Or.inl (by omega)
    · exact Or.inl (by omega)
    · exact Or.inr ⟨by omega, charsLe_trans as bs cs h₁r h₂r⟩

/-- Substring test helper: does `s` start with `p`? -/
def charsStartWith : List Char → List Char → Bool
  | _, [] => true
  | [], _ :: _ => false
  | c :: cs, p :: ps => c == p && charsStartWith cs ps

/-- Python `pat in s` (substring containment). -/
def charsHasSub : List Char → List Char → Bool
  | [], p => p.isEmpty
  | s@(_ :: cs), p => charsStartWith s p || charsHasSub cs p

/-- Python `pat in msg.lower()` for an (already lowercase) pattern `pat`. -/
def containsCI (msg pat : String) : Bool :=
  charsHasSub (msg.data.map Char.toLower) pat.data

/-- Python `sep.join(items)`. -/
def joinSep (sep : String) : List String → String
  | [] => ""
  | s :: rest => rest.foldl (fun acc t => acc ++ sep ++ t) s

/-- Python `s.replace("Z", "+00:00")` (replaces every occurrence). -/
def replaceZchars : List Char → List Char
  | [] => []
  | c :: rest =>
    if c == 'Z' then '+' :: '0' :: '0' :: ':' :: '0' :: '0' :: replaceZchars rest
    else c :: replaceZchars rest

def replaceZ (s : String) : String :=
  ⟨replaceZchars s.data⟩

/-! ## Common fixture shape (API-Football format, produced by both providers)

Fields no claim touches (venue, referee, league metadata) are omitted from the
record; the normalizer fills them from the source but nothing downstream in the
verified claims reads them. -/

structure FixtureStatus where
  short : String
  long : String
  elapsed : Option Int
deriving DecidableEq, Repr

structure TeamRef where
  id : Option Int
  name : String
  logo : Option String
deriving DecidableEq, Repr

structure ScorePair where
  home : Option Int
  away : Option Int
deriving DecidableEq, Repr

/-- One fixture in the normalized (API-Football) shape, as read by the
coordinator: `fixture["fixture"]["status"]["short"]`, `fixture["fixture"]["date"]`
(`none` models an absent `date` key; `some ""` an empty string). -/
structure Fixture where
  id : Option Int
  date : Option String
  status : FixtureStatus
  home : TeamRef
  away : TeamRef
  goals : ScorePair
  halftime : ScorePair
deriving DecidableEq, Repr

/-! ## OpenLigaDB normalizer (`api_openligadb.py`) -/

/-- One entry of a match's `matchResults` list. -/
structure OLResult where
  resultTypeID : Int
  pointsTeam1 : Int
  pointsTeam2 : Int
deriving DecidableEq, Repr

structure OLTeam where
  teamId : Option Int
  teamName : String
  teamIconUrl : Option String
deriving DecidableEq, Repr

/-- An OpenLigaDB match record (the fields `_normalize_fixture` reads; a JSON
`null`/absent `matchResults` is already coalesced to `[]`, mirroring
`match.get("matchResults") or []`). -/
structure OLMatch where
  matchID : Option Int
  matchResults : List OLResult
  matchIsFinished : Bool
  matchDateTimeUTC : Option String
  matchDateTime : Option String
  team1 : OLTeam
  team2 : OLTeam
deriving DecidableEq, Repr

/-- Python `a or b` for an optional string `a` (absent and `""` are falsy). -/
def orStr (a : Option String) (b : String) : String :=
  match a with
  | some s => if s = "" then b else s
  | none => b

/-- `match.get("matchDateTimeUTC") or match.get("matchDateTime") or ""`. -/
def effectiveDateStr (m : OLMatch) : String :=
  orStr m.matchDateTimeUTC (orStr m.matchDateTime "")

/-- `_parse_utc`: rewrite a literal `Z` to `+00:00`, parse, assume UTC when the
string carries no zone; `none` on empty input or parse failure. -/
def parseUtc (dateStr : String) : Option PyDateTime :=
  if dateStr = "" then none
  else
    match fromisoformat (replaceZ dateStr) with
    | some dt => some (ensureAware dt)
    | none => none

/-- Status derivation of `_normalize_fixture`: `FT` when the source marks the
match finished; otherwise `LIVE` when `0 <= (now - kickoff).total_seconds()/60
<= 150` (expressed exactly in seconds: `0 ≤ diff ≤ 9000`); otherwise — including
an unparseable date — `NS`. Returns (short, long). -/
def matchStatus (m : OLMatch) (now : PyDateTime) : String × String :=
  if m.matchIsFinished then ("FT", "Match Finished")
  else
    match parseUtc (effectiveDateStr m) with
    | some matchDt =>
      let diffSeconds : Int := utcSeconds now - utcSeconds matchDt
      if 0 ≤ diffSeconds ∧ diffSeconds ≤ 150 * 60 then ("LIVE", "In Progress")
      else ("NS", "Not Started")
    | none => ("NS", "Not Started")

/-- `_normalize_fixture`: convert one OpenLigaDB match to the common shape. -/
def normalizeFixture (m : OLMatch) (now : PyDateTime) : Fixture :=
  let results := m.matchResults
  let final := results.find? (fun r => r.resultTypeID == 2)
  let halftime := results.find? (fun r => r.resultTypeID == 1)
  let dateStr := effectiveDateStr m
  { id := m.matchID
    date := some dateStr
    status :=
      { short := (matchStatus m now).1
        long := (matchStatus m now).2
        elapsed := none }
    home :=
      { id := m.team1.teamId, name := m.team1.teamName, logo := m.team1.teamIconUrl }
    away :=
      { id := m.team2.teamId, name := m.team2.teamName, logo := m.team2.teamIconUrl }
    goals :=
      { home := final.map (fun r => r.pointsTeam1)
        away := final.map (fun r => r.pointsTeam2) }
    halftime :=
      { home := halftime.map (fun r => r.pointsTeam1)
        away := halftime.map (fun r => r.pointsTeam2) } }

/-! ## Keyed API client (`api.py`): `_request` error classification -/

/-- A JSON value as decoded by `json.loads` (ints stand in for all numbers;
no claim depends on floats). -/
inductive PyVal where
  | pynull
  | pybool (b : Bool)
  | pyint (n : Int)
  | pystr (s : String)
  | pylist (l : List PyVal)
  | pydict (l : List (String × PyVal))

/-- Python `is None` test against JSON `null`. -/
def PyVal.isNull : PyVal → Bool
  | .pynull => true
  | _ => false

/-- `dict.get(key)`: `none` when the key is absent (JSON objects have unique
keys, so first match suffices). -/
def pyDictGet (l : List (String × PyVal)) (k : String) : Option PyVal :=
  (l.find? (fun kv => kv.1 == k)).map (fun kv => kv.2)

/-- The `errors` field of an API-Football body. Leaf values are modelled as
strings (the provider emits string error messages, and `str()` of a Python
string is the string itself). -/
inductive ErrField where
  | edict (entries : List (String × String))
  | elist (items : List String)
  | estr (s : String)
deriving DecidableEq, Repr

/-- Python truthiness of `data.get("errors")` (`if errors:`): absent or empty
containers or the empty string are falsy. -/
def errTruthy : Option ErrField → Bool
  | none => false
  | some (.edict l) => !l.isEmpty
  | some (.elist l) => !l.isEmpty
  | some (.estr s) => !(s == "")

/-- The stringified error message `err_msg`:
`" | ".join(str(v) for v in errors.values())` for a dict (note: the VALUES
only — dict keys do not enter the message), `" | ".join(...)` for a non-empty
list, `str(errors)` otherwise. -/
def errMsg : ErrField → String
  | .edict l => joinSep " | " (l.map (fun kv => kv.2))
  | .elist l => if l.isEmpty then "[]" else joinSep " | " l
  | .estr s => s

/-- The error taxonomy of `api.py` (`MatchdayRateLimitError` and
`MatchdayAuthError` are subclasses of `MatchdayApiError`; the inductive keeps
them as distinct constructors and call sites that catch the base class match
all three). -/
inductive ApiErr where
  | auth (msg : String)
  | rateLimit (msg : String)
  | api (msg : String)
deriving DecidableEq, Repr

/-- The part of a decoded JSON body the verified operations read:
`data.get("errors")` and `data.get("response")`. -/
structure ApiJsonBody where
  errors : Option ErrField
  response : Option PyVal

/-- The outcome of the HTTP exchange, before `_request`'s own processing:
either a transport failure (`aiohttp.ClientError`/timeout) or a status code
with a decoded body (`none` = the body was not valid JSON). -/
inductive RequestInput where
  | connectionError
  | response (status : Nat) (body : Option ApiJsonBody)

/-- `MatchdayApiClient._request` after the transport exchange: HTTP-status
classification (401 → auth, 499 → rate limit, `raise_for_status` for ≥ 400),
the non-JSON-body case, then the body-level `errors` channel classified by
case-insensitive keyword match on the stringified content. -/
def requestOutcome : RequestInput → Except ApiErr ApiJsonBody
  | .connectionError => .error (.api "Connection error")
  | .response status body =>
    if status == 401 then .error (.auth "Invalid API key (HTTP 401)")
    else if status == 499 then .error (.rateLimit "Daily request quota exceeded (HTTP 499)")
    else if 400 ≤ status then .error (.api "HTTP error")
    else
      match body with
      | none => .error (.api "Non-JSON response")
      | some data =>
        if errTruthy data.errors then
          match data.errors with
          | some e =>
            let msg := errMsg e
            if containsCI msg "token" || containsCI msg "key" then .error (.auth msg)
            else if containsCI msg "limit" || containsCI msg "requests" then
              .error (.rateLimit msg)
            else .error (.api msg)
          | none => .ok data
        else .ok data

/-- The result of `json.loads` on an HTTP-success body: a JSON object (on
which `data.get(...)` works), or a valid-JSON non-object value — a list,
string, number, boolean or null — on which the attribute access
`data.get("errors")` at the top of the body-error check raises
`AttributeError`. -/
inductive DecodedBody where
  | obj (data : ApiJsonBody)
  | nonObj

/-- The full input space of one `_request` call: a transport failure, or a
status code with the decode result of the body (`none` = `json.loads` raised
`ValueError`). Extends `RequestInput` with the valid-JSON non-object case. -/
inductive FullRequestInput where
  | connectionError
  | response (status : Nat) (body : Option DecodedBody)

/-- How a `_request` call ends: a normal return, a raised error of the
`MatchdayApiError` hierarchy, or an exception outside that hierarchy
(the `AttributeError` from `data.get` on a non-object body) that no caller
in this integration catches. -/
inductive RequestResult where
  | ok (data : ApiJsonBody)
  | raised (e : ApiErr)
  | uncaught (exc : String)

/-- `_request` over the full input space. On an object body it behaves as
`requestOutcome`; on a valid-JSON non-object body the attribute access
`data.get("errors")` raises `AttributeError`, which is not a
`MatchdayApiError` and therefore escapes `_request` un-classified. -/
def requestOutcomeFull : FullRequestInput → RequestResult
  | .connectionError => .raised (.api "Connection error")
  | .response status body =>
    match body with
    | some .nonObj =>
      if status == 401 then .raised (.auth "Invalid API key (HTTP 401)")
      else if status == 499 then
        .raised (.rateLimit "Daily request quota exceeded (HTTP 499)")
      else if 400 ≤ status then .raised (.api "HTTP error")
      else .uncaught "AttributeError"
    | some (.obj data) =>
      match requestOutcome (.response status (some data)) with
      | .ok d => .ok d
      | .error e => .raised e
    | none =>
      match requestOutcome (.response status none) with
      | .ok d => .ok d
      | .error e => .raised e

/-- `MatchdayApiClient.validate_api_key`: the `except` clauses catch
`MatchdayAuthError` and `MatchdayApiError` (which also covers rate-limit
errors — they subclass it) and return `False`; an exception outside that
hierarchy — the `AttributeError` on a valid-JSON non-object body — matches
neither clause and propagates out of the call, modelled as `none`.
On a normal return the result is `True` iff `data.get("response")` is a dict
whose `"account"` entry is present and not `None`. -/
def validateApiKey (inp : FullRequestInput) : Option Bool :=
  match requestOutcomeFull inp with
  | .uncaught _ => none
  | .raised _ => some false
  | .ok data =>
    some
      (match data.response with
       | some (.pydict kvs) =>
         match pyDictGet kvs "account" with
         | some v => !v.isNull
         | none => false
       | _ => false)

/-! ## Coordinator (`coordinator.py`) -/

/-- `const.py` interval constants (minutes). -/
def SCAN_INTERVAL_DEFAULT : Nat := 30
def SCAN_INTERVAL_MATCHDAY : Nat := 5
def SCAN_INTERVAL_LIVE : Nat := 1

/-- `const.py` status-code sets. -/
def LIVE_STATUS_CODES : List String :=
  ["1H", "HT", "2H", "ET", "BT", "P", "SUSP", "INT", "LIVE"]

def FINISHED_STATUS_CODES : List String :=
  ["FT", "AET", "PEN"]

/-- `fixture["fixture"]["status"]["short"] in LIVE_STATUS_CODES`. -/
def isLiveFixture (f : Fixture) : Bool :=
  LIVE_STATUS_CODES.contains f.status.short

/-- The date guard of `_process_fixtures`/`_is_today`: `none` when the `date`
key is absent or empty (`if not raw_date`) or `datetime.fromisoformat` raises. -/
def parsedDate (f : Fixture) : Option PyDateTime :=
  match f.date with
  | none => none
  | some raw => if raw = "" then none else fromisoformat raw

/-- The loop state of `_process_fixtures`. -/
structure PartState where
  live : Option Fixture
  upcoming : List Fixture
  past : List Fixture
deriving DecidableEq, Repr

/-- One iteration of the `_process_fixtures` loop: a live-status fixture
becomes the `live` value (overwriting any earlier one); otherwise a fixture
with a missing/empty/unparseable date is skipped; otherwise it goes to `past`
when its status is finished or its kickoff instant is at or before `now`,
else to `upcoming`. -/
def stepFixture (now : PyDateTime) (st : PartState) (f : Fixture) : PartState :=
  if isLiveFixture f then { st with live := some f }
  else
    match parsedDate f with
    | none => st
    | some dt =>
      let matchDt := ensureAware dt
      if FINISHED_STATUS_CODES.contains f.status.short
          || decide (utcSeconds matchDt ≤ utcSeconds now) then
        { st with past := st.past ++ [f] }
      else
        { st with upcoming := st.upcoming ++ [f] }

/-- The partitioning scan of `_process_fixtures`. -/
def partitionFixtures (fixtures : List Fixture) (now : PyDateTime) : PartState :=
  fixtures.foldl (stepFixture now) ⟨none, [], []⟩

/-- The sort key `lambda f: f["fixture"]["date"]` (bucket members always carry
a date; `getD` only supplies a default for the unreachable `none`). -/
def dateKey (f : Fixture) : String :=
  f.date.getD ""

/-- Ascending raw-date-string order on fixtures (Python's lexicographic
string comparison). -/
def dateLe (a b : Fixture) : Prop :=
  strLe (dateKey a) (dateKey b) = true

/-- Descending raw-date-string order (`sort(..., reverse=True)`). -/
def dateGe (a b : Fixture) : Prop :=
  strLe (dateKey b) (dateKey a) = true

instance : DecidableRel dateLe := fun _ _ => decEq _ _
instance : DecidableRel dateGe := fun _ _ => decEq _ _

instance : IsTotal Fixture dateLe :=
  ⟨fun a b => charsLe_total (dateKey a).data (dateKey b).data⟩

instance : IsTrans Fixture dateLe :=
  ⟨fun _ _ _ h₁ h₂ => charsLe_trans _ _ _ h₁ h₂⟩

instance : IsTotal Fixture dateGe :=
  ⟨fun a b => charsLe_total (dateKey b).data (dateKey a).data⟩

instance : IsTrans Fixture dateGe :=
  ⟨fun _ _ _ h₁ h₂ => charsLe_trans _ _ _ h₂ h₁⟩

/-- The processed snapshot built by `_process_fixtures` (the `standing` key is
added afterwards by `_async_update_data`). -/
structure Processed where
  live : Option Fixture
  next_match : Option Fixture
  last_match : Option Fixture
deriving DecidableEq, Repr

/-- `_process_fixtures`: partition, sort `upcoming` ascending and `past`
descending by raw date string (a stable sort, like Python's), take the heads. -/
def processFixtures (fixtures : List Fixture) (now : PyDateTime) : Processed :=
  let st := partitionFixtures fixtures now
  let upcomingSorted := st.upcoming.insertionSort dateLe
  let pastSorted := st.past.insertionSort dateGe
  { live := st.live
    next_match := upcomingSorted.head?
    last_match := pastSorted.head? }

/-- `MatchdayCoordinator._is_today`: parse the fixture's raw date, assume UTC
when naive, and compare its wall-clock calendar date (`match_dt.date()` — not
converted to UTC) with the UTC calendar date of `now`
(`datetime.now(tz=timezone.utc).date()`); `False` on a missing or unparseable
date. -/
def isToday (f : Fixture) (now : PyDateTime) : Bool :=
  match parsedDate f with
  | none => false
  | some dt => pyDate (ensureAware dt) == pyDate now

/-- `MatchdayCoordinator._adjust_poll_interval`: pick the target interval by
priority (live → 1, next-match-today → 5, default → 30) and assign it only when
it differs from the current one. `some v` models the assignment
`self.update_interval = v`; `none` models leaving the attribute untouched.
`data.get("live")` / `data.get("next_match")` are truthy exactly when the
optional fixture is present (fixture dicts are non-empty). -/
def newIntervalFor (data : Processed) (now : PyDateTime) : Nat :=
  if data.live.isSome then SCAN_INTERVAL_LIVE
  else if (match data.next_match with
           | some f => isToday f now
           | none => false) then SCAN_INTERVAL_MATCHDAY
  else SCAN_INTERVAL_DEFAULT

def adjustPollInterval (data : Processed) (now : PyDateTime) (current : Nat) :
    Option Nat :=
  if current ≠ newIntervalFor data now then some (newIntervalFor data now) else none

/-- The poll interval after a refresh applied `_adjust_poll_interval`. -/
def appliedInterval (data : Processed) (now : PyDateTime) (current : Nat) : Nat :=
  (adjustPollInterval data now current).getD current

/-- One row of a standings group (`entry.get("team", {}).get("id")`). -/
structure StandingEntry where
  teamId : Option Int
  rank : Nat
  points : Int
deriving DecidableEq, Repr

/-- One element of the standings response:
`league_entry.get("league", {}).get("standings", [])`. -/
structure LeagueEntry where
  standings : List (List StandingEntry)
deriving DecidableEq, Repr

/-- `MatchdayCoordinator._extract_standing`: first entry across all groups
whose team id equals the tracked team id. -/
def extractStanding (standings : List LeagueEntry) (teamId : Int) :
    Option StandingEntry :=
  match standings with
  | [] => none
  | le :: rest =>
    match extractFromGroups le.standings teamId with
    | some e => some e
    | none => extractStanding rest teamId
where
  extractFromGroups (groups : List (List StandingEntry)) (teamId : Int) :
      Option StandingEntry :=
    match groups with
    | [] => none
    | g :: gs =>
      match g.find? (fun e => e.teamId == some teamId) with
      | some e => some e
      | none => extractFromGroups gs teamId

/-- The outcome `_async_update_data` hands to Home Assistant: a fatal
`ConfigEntryAuthFailed`, a transient `UpdateFailed`, or the processed snapshot. -/
inductive UpdateOutcome where
  | configEntryAuthFailed
  | updateFailed (msg : String)
  | success (data : Processed) (standing : Option StandingEntry)
deriving DecidableEq, Repr

/-- `MatchdayCoordinator._async_update_data` as a function of the fetch result:
an auth error raises `ConfigEntryAuthFailed`; a rate-limit error and any other
API error raise `UpdateFailed`; on success the fixtures are processed, the
standing extracted, and the poll interval adjusted. Returns the outcome paired
with the poll interval after the cycle (unchanged on every failure path: the
`except` clauses re-raise before `_adjust_poll_interval` runs). -/
def asyncUpdateData (fetch : Except ApiErr (List Fixture × List LeagueEntry))
    (teamId : Int) (now : PyDateTime) (currentInterval : Nat) :
    UpdateOutcome × Nat :=
  match fetch with
  | .error (.auth _) => (.configEntryAuthFailed, currentInterval)
  | .error (.rateLimit m) =>
    (.updateFailed ("Daily quota exceeded: " ++ m), currentInterval)
  | .error (.api m) => (.updateFailed ("API error: " ++ m), currentInterval)
  | .ok (fixtures, standings) =>
    let processed := processFixtures fixtures now
    (.success processed (extractStanding standings teamId),
     appliedInterval processed now currentInterval)

/-- Everything a provider client can raise during the fetch. The coordinator
holds whichever client `async_setup_entry` wired in: the keyed client raises
the `MatchdayApiError` hierarchy; the keyless client raises `OpenLigaDbError`,
a plain `Exception` subclass that is NOT a `MatchdayApiError` (config_flow.py
catches the two as separate types); and the keyed client's `_request` can also
leak a bare `AttributeError` on a valid-JSON non-object body. -/
inductive ProviderErr where
  | matchday (e : ApiErr)
  | openLigaDb (msg : String)
  | pythonError (exc : String)
deriving DecidableEq, Repr

/-- What one `_async_update_data` call looks like to the host: one of the
outcomes the coordinator itself produces (a typed raise or a success return),
or an exception that matched none of its `except` clauses and propagates
un-mapped. -/
inductive HostUpdateResult where
  | handled (o : UpdateOutcome)
  | unhandledException (msg : String)
deriving DecidableEq, Repr

/-- `_async_update_data` over the full provider-failure space. The `except`
clauses (MatchdayAuthError / MatchdayRateLimitError / MatchdayApiError) map the
keyed client's errors exactly as `asyncUpdateData` does; an `OpenLigaDbError`
or a leaked `AttributeError` matches none of them and escapes the coordinator
unmapped. The poll interval is untouched on every failure path. -/
def asyncUpdateDataFull (fetch : Except ProviderErr (List Fixture × List LeagueEntry))
    (teamId : Int) (now : PyDateTime) (currentInterval : Nat) :
    HostUpdateResult × Nat :=
  match fetch with
  | .error (.openLigaDb msg) => (.unhandledException msg, currentInterval)
  | .error (.pythonError exc) => (.unhandledException exc, currentInterval)
  | .error (.matchday e) =>
    let r := asyncUpdateData (.error e) teamId now currentInterval
    (.handled r.1, r.2)
  | .ok payload =>
    let r := asyncUpdateData (.ok payload) teamId now currentInterval
    (.handled r.1, r.2)

/-! ## Claims -/

/-- **C10**: every fixture produced by the keyless provider's normalizer has a
null `elapsed` field in its status — even when classified live, the elapsed
value computed for classification is never emitted. -/
theorem C10_normalizer_elapsed_always_none (m : OLMatch) (now : PyDateTime) :
    (normalizeFixture m now).status.elapsed = none := rfl

/-- **C4**: status derivation of the keyless normalizer — `FT` when the record
is marked finished; otherwise, with the kickoff parsed by `parseUtc` from the
UTC field (falling back to the local field, naive read as UTC), `LIVE`/"In
Progress" exactly when the elapsed time `now - kickoff` lies within
[0, 150] minutes (= [0, 9000] seconds), and `NS`/"Not Started" otherwise,
including when the date is unparseable. -/
theorem C4_normalizer_status_derivation (m : OLMatch) (now : PyDateTime) :
    (m.matchIsFinished = true →
      (normalizeFixture m now).status.short = "FT" ∧
      (normalizeFixture m now).status.long = "Match Finished") ∧
    (m.matchIsFinished = false → parseUtc (effectiveDateStr m) = none →
      (normalizeFixture m now).status.short = "NS" ∧
      (normalizeFixture m now).status.long = "Not Started") ∧
    (∀ dt, m.matchIsFinished = false → parseUtc (effectiveDateStr m) = some dt →
      ((0 ≤ utcSeconds now - utcSeconds dt ∧ utcSeconds now - utcSeconds dt ≤ 150 * 60) →
        (normalizeFixture m now).status.short = "LIVE" ∧
        (normalizeFixture m now).status.long = "In Progress") ∧
      (¬(0 ≤ utcSeconds now - utcSeconds dt ∧ utcSeconds now - utcSeconds dt ≤ 150 * 60) →
        (normalizeFixture m now).status.short = "NS" ∧
        (normalizeFixture m now).status.long = "Not Started")) := by
  have hshort : (normalizeFixture m now).status.short = (matchStatus m now).1 := rfl
  have hlong : (normalizeFixture m now).status.long = (matchStatus m now).2 := rfl
  refine ⟨fun hfin => ?_, fun hfin hnone => ?_, fun dt hfin hsome => ⟨fun hin => ?_, fun hout => ?_⟩⟩
  · rw [hshort, hlong]
    simp [matchStatus, hfin]
  · rw [hshort, hlong]
    simp [matchStatus, hfin, hnone]
  · rw [hshort, hlong]
    simp only [matchStatus, hfin, Bool.false_eq_true, if_false, hsome]
    rw [if_pos hin]
    exact ⟨rfl, rfl⟩
  · rw [hshort, hlong]
    simp only [matchStatus, hfin, Bool.false_eq_true, if_false, hsome]
    rw [if_neg hout]
    exact ⟨rfl, rfl⟩

/-- **C4 witness**: a record with no UTC field, a local kickoff 30 minutes in
the past (naive, read as UTC) and `matchIsFinished = false` classifies as
`LIVE`/"In Progress". -/
theorem C4_witness :
    (normalizeFixture
        ⟨some 7, [], false, none, some "2026-04-01T15:00:00",
         ⟨some 1, "Home", none⟩, ⟨some 2, "Away", none⟩⟩
        ⟨2026, 4, 1, 15, 30, 0, some 0⟩).status.short = "LIVE" ∧
    (normalizeFixture
        ⟨some 7, [], false, none, some "2026-04-01T15:00:00",
         ⟨some 1, "Home", none⟩, ⟨some 2, "Away", none⟩⟩
        ⟨2026, 4, 1, 15, 30, 0, some 0⟩).status.long = "In Progress" :=
  ((C4_normalizer_status_derivation
      ⟨some 7, [], false, none, some "2026-04-01T15:00:00",
       ⟨some 1, "Home", none⟩, ⟨some 2, "Away", none⟩⟩
      ⟨2026, 4, 1, 15, 30, 0, some 0⟩).2.2
      ⟨2026, 4, 1, 15, 0, 0, some 0⟩ rfl (by decide)).1 (by decide)

/-- **C7**: the normalizer takes goals from the `matchResults` entry whose
`resultTypeID` is 2 (final) and the halftime score from the entry with
`resultTypeID` 1; an absent entry yields null scores, never zero. A finished
record also carries status short `FT`. -/
theorem C7_normalizer_goals_from_results (m : OLMatch) (now : PyDateTime) :
    (m.matchResults.find? (fun r => r.resultTypeID == 2) = none →
      (normalizeFixture m now).goals.home = none ∧
      (normalizeFixture m now).goals.away = none) ∧
    (∀ r, m.matchResults.find? (fun r => r.resultTypeID == 2) = some r →
      (normalizeFixture m now).goals.home = some r.pointsTeam1 ∧
      (normalizeFixture m now).goals.away = some r.pointsTeam2) ∧
    (m.matchResults.find? (fun r => r.resultTypeID == 1) = none →
      (normalizeFixture m now).halftime.home = none ∧
      (normalizeFixture m now).halftime.away = none) ∧
    (∀ r, m.matchResults.find? (fun r => r.resultTypeID == 1) = some r →
      (normalizeFixture m now).halftime.home = some r.pointsTeam1 ∧
      (normalizeFixture m now).halftime.away = some r.pointsTeam2) ∧
    (m.matchIsFinished = true → (normalizeFixture m now).status.short = "FT") := by
  have hg : (normalizeFixture m now).goals
      = ⟨(m.matchResults.find? (fun r => r.resultTypeID == 2)).map (fun r => r.pointsTeam1),
         (m.matchResults.find? (fun r => r.resultTypeID == 2)).map (fun r => r.pointsTeam2)⟩ := rfl
  have hh : (normalizeFixture m now).halftime
      = ⟨(m.matchResults.find? (fun r => r.resultTypeID == 1)).map (fun r => r.pointsTeam1),
         (m.matchResults.find? (fun r => r.resultTypeID == 1)).map (fun r => r.pointsTeam2)⟩ := rfl
  refine ⟨fun h2 => ?_, fun r h2 => ?_, fun h1 => ?_, fun r h1 => ?_, fun hfin => ?_⟩
  · rw [hg]; simp [h2]
  · rw [hg]; simp [h2]
  · rw [hh]; simp [h1]
  · rw [hh]; simp [h1]
  · have : (normalizeFixture m now).status.short = (matchStatus m now).1 := rfl
    rw [this]; simp [matchStatus, hfin]

/-- **C7 witness**: a record with `matchIsFinished = true` and a final-result
entry `{pointsTeam1: 2, pointsTeam2: 1}` normalizes to status short `FT` with
goals home 2, away 1. -/
theorem C7_witness :
    (normalizeFixture
        ⟨some 8, [⟨2, 2, 1⟩], true, some "2026-04-01T15:00:00Z", none,
         ⟨some 1, "Home", none⟩, ⟨some 2, "Away", none⟩⟩
        ⟨2026, 4, 1, 18, 0, 0, some 0⟩).status.short = "FT" ∧
    (normalizeFixture
        ⟨some 8, [⟨2, 2, 1⟩], true, some "2026-04-01T15:00:00Z", none,
         ⟨some 1, "Home", none⟩, ⟨some 2, "Away", none⟩⟩
        ⟨2026, 4, 1, 18, 0, 0, some 0⟩).goals.home = some 2 ∧
    (normalizeFixture
        ⟨some 8, [⟨2, 2, 1⟩], true, some "2026-04-01T15:00:00Z", none,
         ⟨some 1, "Home", none⟩, ⟨some 2, "Away", none⟩⟩
        ⟨2026, 4, 1, 18, 0, 0, some 0⟩).goals.away = some 1 :=
  ⟨(C7_normalizer_goals_from_results
      ⟨some 8, [⟨2, 2, 1⟩], true, some "2026-04-01T15:00:00Z", none,
       ⟨some 1, "Home", none⟩, ⟨some 2, "Away", none⟩⟩
      ⟨2026, 4, 1, 18, 0, 0, some 0⟩).2.2.2.2 rfl,
   ((C7_normalizer_goals_from_results
      ⟨some 8, [⟨2, 2, 1⟩], true, some "2026-04-01T15:00:00Z", none,
       ⟨some 1, "Home", none⟩, ⟨some 2, "Away", none⟩⟩
      ⟨2026, 4, 1, 18, 0, 0, some 0⟩).2.1 ⟨2, 2, 1⟩ (by decide)).1,
   ((C7_normalizer_goals_from_results
      ⟨some 8, [⟨2, 2, 1⟩], true, some "2026-04-01T15:00:00Z", none,
       ⟨some 1, "Home", none⟩, ⟨some 2, "Away", none⟩⟩
      ⟨2026, 4, 1, 18, 0, 0, some 0⟩).2.1 ⟨2, 2, 1⟩ (by decide)).2⟩

/-- **C8 counterexample**: a keyless-provider failure — the `OpenLigaDbError`
raised when the configured league has no OpenLigaDB shortcut — matches none of
the coordinator's `except` clauses (`OpenLigaDbError` is not a
`MatchdayApiError`) and escapes `_async_update_data` unmapped, contradicting
the claim that every provider failure is surfaced as a typed outcome without
crashing. -/
theorem C8_counterexample :
    asyncUpdateDataFull
        (.error (.openLigaDb "No OpenLigaDB shortcut for league ID 80"))
        7 ⟨2026, 3, 10, 15, 30, 0, some 0⟩ 30
      = (.unhandledException "No OpenLigaDB shortcut for league ID 80", 30) :=
  rfl

/-- **C8 amended**: for every failure of the keyed provider — the
`MatchdayApiError` hierarchy — the coordinator maps the error to a typed
outcome without crashing: an auth error becomes the fatal
`ConfigEntryAuthFailed`, while a quota error and any other API error become
transient `UpdateFailed` outcomes for the host scheduler to retry. A failure
outside that hierarchy — the keyless provider's `OpenLigaDbError`, or an
`AttributeError` leaked by `_request` — matches none of the `except` clauses
and propagates to the host unmapped (the poll interval still untouched). -/
theorem C8_provider_error_mapping (msg : String) (teamId : Int)
    (now : PyDateTime) (cur : Nat) :
    (asyncUpdateDataFull (.error (.matchday (.auth msg))) teamId now cur
        = (.handled .configEntryAuthFailed, cur)) ∧
    (asyncUpdateDataFull (.error (.matchday (.rateLimit msg))) teamId now cur
        = (.handled (.updateFailed ("Daily quota exceeded: " ++ msg)), cur)) ∧
    (asyncUpdateDataFull (.error (.matchday (.api msg))) teamId now cur
        = (.handled (.updateFailed ("API error: " ++ msg)), cur)) ∧
    (asyncUpdateDataFull (.error (.openLigaDb msg)) teamId now cur
        = (.unhandledException msg, cur)) ∧
    (asyncUpdateDataFull (.error (.pythonError msg)) teamId now cur
        = (.unhandledException msg, cur)) :=
  ⟨rfl, rfl, rfl, rfl, rfl⟩

/-- **C9**: when the fetch fails — auth, quota, or other API error — the
coordinator's polling-interval state is unchanged; the interval adjustment
runs only after a successful fetch. -/
theorem C9_interval_untouched_on_failure (e : ApiErr) (teamId : Int)
    (now : PyDateTime) (cur : Nat) :
    (asyncUpdateData (.error e) teamId now cur).2 = cur := by
  cases e <;> rfl

/-- **C2 counterexample**: an HTTP 200 response whose body is
`{"errors": {"token": "expired"}}` — a non-empty `errors` field whose
stringified content (the joined dict VALUES, here just `"expired"`) contains
none of the keywords, so `_request` raises `MatchdayApiError`, not
`MatchdayAuthError` as the claim's scenario states. -/
theorem C2_counterexample :
    errTruthy (some (.edict [("token", "expired")])) = true ∧
    requestOutcome
        (.response 200 (some ⟨some (.edict [("token", "expired")]), none⟩))
      = .error (.api "expired") :=
  ⟨rfl, by rfl⟩

/-- **C2 amended**: for every HTTP-success response (status < 400, hence not
401/499) whose JSON body carries a truthy `errors` field, `_request` classifies
by case-insensitive substring match on the stringified errors content, where a
dict is stringified as its joined VALUES (keys are not inspected):
"token"/"key" → `MatchdayAuthError`, else "limit"/"requests" →
`MatchdayRateLimitError`, else `MatchdayApiError`. -/
theorem C2_body_error_classification (status : Nat) (body : ApiJsonBody)
    (e : ErrField) (hstatus : status < 400) (herr : body.errors = some e)
    (htruthy : errTruthy body.errors = true) :
    requestOutcome (.response status (some body)) =
      .error
        (if containsCI (errMsg e) "token" || containsCI (errMsg e) "key" then
          .auth (errMsg e)
        else if containsCI (errMsg e) "limit" || containsCI (errMsg e) "requests" then
          .rateLimit (errMsg e)
        else .api (errMsg e)) := by
  have h401 : (status == 401) = false := by
    simp only [beq_eq_false_iff_ne, ne_eq]; omega
  have h499 : (status == 499) = false := by
    simp only [beq_eq_false_iff_ne, ne_eq]; omega
  have h400 : ¬ (400 ≤ status) := by omega
  have htruthyE : errTruthy (some e) = true := herr ▸ htruthy
  simp only [requestOutcome, h401, h499, h400, if_false, Bool.false_eq_true, htruthyE,
    if_true, herr]
  rw [apply_ite (Except.error : ApiErr → Except ApiErr ApiJsonBody),
    apply_ite (Except.error : ApiErr → Except ApiErr ApiJsonBody)]

/-- **C2 witness**: a realistic auth failure under HTTP 200 — the dict VALUE
mentions "key", so the classifier raises `MatchdayAuthError`. -/
theorem C2_witness :
    (200 : Nat) < 400 ∧
    requestOutcome
        (.response 200
          (some ⟨some (.edict [("token", "Error/Missing application key")]), none⟩))
      = .error (.auth "Error/Missing application key") :=
  ⟨by decide,
   (C2_body_error_classification 200
      ⟨some (.edict [("token", "Error/Missing application key")]), none⟩
      (.edict [("token", "Error/Missing application key")])
      (by decide) rfl (by decide) :
    requestOutcome
        (.response 200
          (some ⟨some (.edict [("token", "Error/Missing application key")]), none⟩))
      = .error (.auth "Error/Missing application key"))⟩

/-- **C6 counterexample**: an HTTP 200 response whose body is valid JSON but
not an object (e.g. `[]`) — `json.loads` succeeds, then `data.get("errors")`
raises `AttributeError`, which is neither `MatchdayAuthError` nor
`MatchdayApiError`; it matches none of `validate_api_key`'s `except` clauses
and propagates (modelled as `none`), so `validate_api_key` does raise on this
malformed response, refuting the claim's "never raises". -/
theorem C6_counterexample :
    requestOutcomeFull (.response 200 (some .nonObj)) = .uncaught "AttributeError" ∧
    validateApiKey (.response 200 (some .nonObj)) = none :=
  ⟨rfl, rfl⟩

/-- **C6 amended**: `validate_api_key` returns `False` on every failure that
`_request` raises as a `MatchdayApiError` (auth failures, quota, transport and
HTTP errors, non-JSON bodies, body-level errors — all caught); it raises
(returns abnormally) exactly when `_request` leaks an exception outside that
hierarchy, i.e. the `AttributeError` on an HTTP-success body that is valid
JSON but not an object; it returns `True` exactly when the body's `response`
field is a dict whose `"account"` entry is present and non-null (a populated
object — in particular not a list and not an empty dict); a list-valued
`response` field inside an object body yields `False` without raising. -/
theorem C6_validate_key_outcomes (inp : FullRequestInput) :
    (∀ e, requestOutcomeFull inp = .raised e → validateApiKey inp = some false) ∧
    (validateApiKey inp = none ↔ ∃ exc, requestOutcomeFull inp = .uncaught exc) ∧
    (validateApiKey inp = some true ↔
      ∃ data kvs v, requestOutcomeFull inp = .ok data ∧
        data.response = some (.pydict kvs) ∧
        pyDictGet kvs "account" = some v ∧ v.isNull = false) ∧
    (∀ data l, requestOutcomeFull inp = .ok data → data.response = some (.pylist l) →
      validateApiKey inp = some false) := by
  refine ⟨fun e he => ?_, ?_, ?_, fun data l hok hresp => ?_⟩
  · simp [validateApiKey, he]
  · constructor
    · intro hnone
      rcases hout : requestOutcomeFull inp with data | e | exc
      · simp [validateApiKey, hout] at hnone
      · simp [validateApiKey, hout] at hnone
      · exact ⟨exc, rfl⟩
    · rintro ⟨exc, hexc⟩
      simp [validateApiKey, hexc]
  · constructor
    · intro htrue
      rcases hout : requestOutcomeFull inp with data | e | exc
      · refine ⟨data, ?_⟩
        rcases hresp : data.response with _ | pv
        · simp [validateApiKey, hout, hresp] at htrue
        · cases pv with
          | pydict kvs =>
            rcases hget : pyDictGet kvs "account" with _ | v
            · simp [validateApiKey, hout, hresp, hget] at htrue
            · refine ⟨kvs, v, rfl, rfl, hget, ?_⟩
              simp [validateApiKey, hout, hresp, hget] at htrue
              simpa using htrue
          | pynull => simp [validateApiKey, hout, hresp] at htrue
          | pybool b => simp [validateApiKey, hout, hresp] at htrue
          | pyint n => simp [validateApiKey, hout, hresp] at htrue
          | pystr s => simp [validateApiKey, hout, hresp] at htrue
          | pylist l => simp [validateApiKey, hout, hresp] at htrue
      · simp [validateApiKey, hout] at htrue
      · simp [validateApiKey, hout] at htrue
    · rintro ⟨data, kvs, v, hok, hresp, hget, hnull⟩
      simp [validateApiKey, hok, hresp, hget, hnull]
  · simp [validateApiKey, hok, hresp]

/-- **C6 witness**: the status endpoint answers HTTP 200 with an object body
`{"response": []}` — a list instead of an object for the account field — and
`validate_api_key` returns `False` rather than raising. -/
theorem C6_witness_list_response :
    validateApiKey (.response 200 (some (.obj ⟨none, some (.pylist [])⟩)))
      = some false :=
  (C6_validate_key_outcomes
      (.response 200 (some (.obj ⟨none, some (.pylist [])⟩)))).2.2.2
    ⟨none, some (.pylist [])⟩ [] rfl rfl

/-- **C3 counterexample**: with no live fixture and a `next_match` dated
`2026-03-11T01:00:00+03:00` — whose kickoff instant (22:00 UTC, 2026-03-10)
falls on the same UTC calendar day as the refresh instant 2026-03-10T22:30Z —
`_adjust_poll_interval` keeps the interval at DEFAULT (30) instead of
reassigning MATCHDAY (5): `_is_today` compares the timestamp's own wall-clock
date (2026-03-11) with the UTC date of now (2026-03-10). -/
theorem C3_counterexample :
    parsedDate
        ⟨some 11, some "2026-03-11T01:00:00+03:00", ⟨"NS", "Not Started", none⟩,
         ⟨none, "", none⟩, ⟨none, "", none⟩, ⟨none, none⟩, ⟨none, none⟩⟩
      = some ⟨2026, 3, 11, 1, 0, 0, some 180⟩ ∧
    utcDayOfInstant (utcSeconds (ensureAware ⟨2026, 3, 11, 1, 0, 0, some 180⟩))
      = utcDayOfInstant (utcSeconds ⟨2026, 3, 10, 22, 30, 0, some 0⟩) ∧
    adjustPollInterval
        ⟨none,
         some ⟨some 11, some "2026-03-11T01:00:00+03:00", ⟨"NS", "Not Started", none⟩,
           ⟨none, "", none⟩, ⟨none, "", none⟩, ⟨none, none⟩, ⟨none, none⟩⟩,
         none⟩
        ⟨2026, 3, 10, 22, 30, 0, some 0⟩ SCAN_INTERVAL_DEFAULT = none ∧
    SCAN_INTERVAL_MATCHDAY ≠ SCAN_INTERVAL_DEFAULT := by
  refine ⟨by decide, by decide, by decide, by decide⟩

/-- **C3 amended**: interval selection is monotonic-by-priority — a live
fixture forces 1 minute regardless of `next_match`; otherwise a `next_match`
whose parsed timestamp's own wall-clock calendar date (which coincides with
the UTC day for UTC-offset or naive timestamps) equals the UTC calendar date
of the refresh instant forces 5 minutes; otherwise 30 minutes — and the
interval attribute is reassigned only when the new value differs from the
current one. -/
theorem C3_interval_priority (data : Processed) (now : PyDateTime) (cur : Nat) :
    (data.live.isSome = true → appliedInterval data now cur = SCAN_INTERVAL_LIVE) ∧
    (data.live = none → ∀ f, data.next_match = some f → isToday f now = true →
      appliedInterval data now cur = SCAN_INTERVAL_MATCHDAY) ∧
    (data.live = none → (∀ f, data.next_match = some f → isToday f now = false) →
      appliedInterval data now cur = SCAN_INTERVAL_DEFAULT) ∧
    (adjustPollInterval data now cur = none ↔ appliedInterval data now cur = cur) ∧
    (∀ v, adjustPollInterval data now cur = some v → v ≠ cur) := by
  have happ : ∀ N : Nat, newIntervalFor data now = N →
      appliedInterval data now cur = N := by
    intro N hN
    by_cases h : cur = N <;>
      simp [appliedInterval, adjustPollInterval, hN, h]
  refine ⟨fun hlive => happ _ ?_, fun hlive f hnext htoday => happ _ ?_,
    fun hlive hnone => happ _ ?_, ?_, ?_⟩
  · simp [newIntervalFor, hlive]
  · simp [newIntervalFor, hlive, hnext, htoday]
  · rcases hnm : data.next_match with _ | f
    · simp [newIntervalFor, hlive, hnm]
    · simp [newIntervalFor, hlive, hnm, hnone f hnm]
  · by_cases h : cur = newIntervalFor data now
    · simp [appliedInterval, adjustPollInterval, h]
    · simp only [appliedInterval, adjustPollInterval, h, ne_eq, not_false_iff, if_true,
        Option.getD_some]
      exact ⟨fun hh => absurd hh (by simp), fun hh => absurd hh.symm h⟩
  · intro v hv
    by_cases h : cur = newIntervalFor data now
    · simp [adjustPollInterval, h] at hv
    · simp only [adjustPollInterval, h, ne_eq, not_false_iff, if_true,
        Option.some.injEq] at hv
      subst hv
      exact fun hvc => h hvc.symm

/-- **C3 witness**: with a live fixture present the applied interval is
1 minute. -/
theorem C3_witness :
    (Processed.mk
        (some ⟨some 1, some "2026-03-10T15:00:00+00:00", ⟨"1H", "First Half", none⟩,
          ⟨none, "", none⟩, ⟨none, "", none⟩, ⟨none, none⟩, ⟨none, none⟩⟩)
        none none).live.isSome = true ∧
    appliedInterval
        (Processed.mk
          (some ⟨some 1, some "2026-03-10T15:00:00+00:00", ⟨"1H", "First Half", none⟩,
            ⟨none, "", none⟩, ⟨none, "", none⟩, ⟨none, none⟩, ⟨none, none⟩⟩)
          none none)
        ⟨2026, 3, 10, 15, 30, 0, some 0⟩ SCAN_INTERVAL_DEFAULT = SCAN_INTERVAL_LIVE :=
  ⟨rfl,
   (C3_interval_priority
      (Processed.mk
        (some ⟨some 1, some "2026-03-10T15:00:00+00:00", ⟨"1H", "First Half", none⟩,
          ⟨none, "", none⟩, ⟨none, "", none⟩, ⟨none, none⟩, ⟨none, none⟩⟩)
        none none)
      ⟨2026, 3, 10, 15, 30, 0, some 0⟩ SCAN_INTERVAL_DEFAULT).1 rfl⟩

/-! ## C1: partition completeness and disjointness -/

/-- A fixture the partitioning scan retains somewhere: live-status fixtures are
kept (as the `live` value) even without a date; all others are kept iff their
date parses. -/
def keepFixture (f : Fixture) : Bool :=
  isLiveFixture f || (parsedDate f).isSome

/-- The multiset union of the three buckets (`live` contributes at most one
element). Stating completeness as a multiset equation simultaneously captures
"the union equals the input" and "no fixture lands in two buckets" (with
multiplicity). -/
def bucketBag (st : PartState) : Multiset Fixture :=
  ↑st.live.toList + ↑st.upcoming + ↑st.past

theorem stepFixture_of_live (now : PyDateTime) (st : PartState) {f : Fixture}
    (h : isLiveFixture f = true) :
    stepFixture now st f = { st with live := some f } := by
  simp [stepFixture, h]

theorem stepFixture_of_drop (now : PyDateTime) (st : PartState) {f : Fixture}
    (h1 : isLiveFixture f = false) (h2 : parsedDate f = none) :
    stepFixture now st f = st := by
  simp [stepFixture, h1, h2]

theorem stepFixture_of_keep (now : PyDateTime) (st : PartState) {f : Fixture}
    (h1 : isLiveFixture f = false) (dt : PyDateTime) (h2 : parsedDate f = some dt) :
    stepFixture now st f = { st with past := st.past ++ [f] } ∨
    stepFixture now st f = { st with upcoming := st.upcoming ++ [f] } := by
  simp only [stepFixture, h1, Bool.false_eq_true, if_false, h2]
  by_cases h : (FINISHED_STATUS_CODES.contains f.status.short
      || decide (utcSeconds (ensureAware dt) ≤ utcSeconds now)) = true
  · left; rw [if_pos h]
  · right; rw [if_neg h]

/-- Generalized invariant for the partitioning fold: as long as the scan will
see at most one live-status fixture in total (counting one already stored in
the state), the bucket bag grows by exactly the kept fixtures. -/
theorem partitionBag_aux (now : PyDateTime) :
    ∀ (l : List Fixture) (st : PartState),
      (l.filter isLiveFixture).length + st.live.toList.length ≤ 1 →
      bucketBag (l.foldl (stepFixture now) st)
        = bucketBag st + ↑(l.filter keepFixture) := by
  intro l
  induction l with
  | nil => intro st _; simp [bucketBag]
  | cons f l ih =>
    intro st h
    rw [List.foldl_cons]
    by_cases hlf : isLiveFixture f = true
    · have hlen : (List.filter isLiveFixture l).length + 1 + st.live.toList.length ≤ 1 := by
        simpa [List.filter_cons, hlf] using h
      have h1 : (List.filter isLiveFixture l).length = 0 := by omega
      have h2 : st.live.toList.length = 0 := by omega
      have hstl : st.live = none := by
        cases hsl : st.live
        · rfl
        · rw [hsl] at h2; simp at h2
      have hkeep : keepFixture f = true := by simp [keepFixture, hlf]
      rw [stepFixture_of_live now st hlf, ih _ (by simp [h1]),
        List.filter_cons_of_pos hkeep]
      simp only [bucketBag, hstl, Option.toList_some, Option.toList_none,
        Multiset.coe_nil, ← Multiset.cons_coe, ← Multiset.singleton_add,
        Multiset.coe_singleton]
      abel
    · have hlf' : isLiveFixture f = false := by simpa using hlf
      have h' : (List.filter isLiveFixture l).length + st.live.toList.length ≤ 1 := by
        simpa [List.filter_cons, hlf'] using h
      rcases hpd : parsedDate f with _ | dt
      · have hkeep : keepFixture f = false := by simp [keepFixture, hlf', hpd]
        rw [stepFixture_of_drop now st hlf' hpd, List.filter_cons_of_neg (by simp [hkeep])]
        exact ih st h'
      · have hkeep : keepFixture f = true := by simp [keepFixture, hlf', hpd]
        rcases stepFixture_of_keep now st hlf' dt hpd with hstep | hstep <;>
          rw [hstep, ih _ (by simpa using h'), List.filter_cons_of_pos hkeep] <;>
          simp only [bucketBag, ← Multiset.coe_add, ← Multiset.cons_coe,
            ← Multiset.singleton_add, Multiset.coe_singleton] <;>
          abel

/-- **C1 counterexample**: two simultaneously live fixtures — the second
overwrites the first in the `live` slot, so the first (whose date is present
and parseable) appears in no bucket; the union of the buckets is strictly
smaller than the input, refuting the claim for arbitrary inputs. -/
theorem C1_counterexample :
    partitionFixtures
        [⟨some 1, some "2026-03-10T15:00:00+00:00", ⟨"1H", "First Half", none⟩,
          ⟨none, "", none⟩, ⟨none, "", none⟩, ⟨none, none⟩, ⟨none, none⟩⟩,
         ⟨some 2, some "2026-03-10T15:05:00+00:00", ⟨"LIVE", "In Progress", none⟩,
          ⟨none, "", none⟩, ⟨none, "", none⟩, ⟨none, none⟩, ⟨none, none⟩⟩]
        ⟨2026, 3, 10, 15, 30, 0, some 0⟩
      = ⟨some ⟨some 2, some "2026-03-10T15:05:00+00:00", ⟨"LIVE", "In Progress", none⟩,
          ⟨none, "", none⟩, ⟨none, "", none⟩, ⟨none, none⟩, ⟨none, none⟩⟩, [], []⟩ ∧
    isLiveFixture
        ⟨some 1, some "2026-03-10T15:00:00+00:00", ⟨"1H", "First Half", none⟩,
         ⟨none, "", none⟩, ⟨none, "", none⟩, ⟨none, none⟩, ⟨none, none⟩⟩ = true ∧
    (parsedDate
        ⟨some 1, some "2026-03-10T15:00:00+00:00", ⟨"1H", "First Half", none⟩,
         ⟨none, "", none⟩, ⟨none, "", none⟩, ⟨none, none⟩, ⟨none, none⟩⟩).isSome
      = true ∧
    (⟨some 1, some "2026-03-10T15:00:00+00:00", ⟨"1H", "First Half", none⟩,
      ⟨none, "", none⟩, ⟨none, "", none⟩, ⟨none, none⟩, ⟨none, none⟩⟩ : Fixture)
      ≠ ⟨some 2, some "2026-03-10T15:05:00+00:00", ⟨"LIVE", "In Progress", none⟩,
         ⟨none, "", none⟩, ⟨none, "", none⟩, ⟨none, none⟩, ⟨none, none⟩⟩ := by
  refine ⟨by decide, by decide, by decide, by decide⟩

/-- **C1 amended**: for every input fixture list containing at most one fixture
with a live status code (when several are live the last encountered overwrites
the earlier ones, which are then dropped — a documented limitation), the
multiset union of the live, upcoming and past buckets equals the input
restricted to fixtures that are live or have a present, parseable date; i.e.
only unparseable-date fixtures are dropped and no fixture is duplicated across
buckets. -/
theorem C1_partition_complete (fixtures : List Fixture) (now : PyDateTime)
    (h : (fixtures.filter isLiveFixture).length ≤ 1) :
    bucketBag (partitionFixtures fixtures now)
      = ↑(fixtures.filter keepFixture) := by
  have haux := partitionBag_aux now fixtures ⟨none, [], []⟩ (by simpa using h)
  simpa [bucketBag] using haux

/-- **C1 witness**: a list with one live fixture, one upcoming, one past and
one unparseable-date fixture — the buckets together hold exactly the first
three. -/
theorem C1_witness :
    (([⟨some 1, some "2026-03-10T15:00:00+00:00", ⟨"1H", "First Half", none⟩,
        ⟨none, "", none⟩, ⟨none, "", none⟩, ⟨none, none⟩, ⟨none, none⟩⟩,
       ⟨some 2, some "2026-03-12T15:00:00+00:00", ⟨"NS", "Not Started", none⟩,
        ⟨none, "", none⟩, ⟨none, "", none⟩, ⟨none, none⟩, ⟨none, none⟩⟩,
       ⟨some 3, some "2026-03-01T15:00:00+00:00", ⟨"FT", "Match Finished", none⟩,
        ⟨none, "", none⟩, ⟨none, "", none⟩, ⟨some 2, some 0⟩, ⟨none, none⟩⟩,
       ⟨some 4, some "not-a-date", ⟨"NS", "Not Started", none⟩,
        ⟨none, "", none⟩, ⟨none, "", none⟩, ⟨none, none⟩, ⟨none, none⟩⟩] :
      List Fixture).filter isLiveFixture).length ≤ 1 ∧
    bucketBag
        (partitionFixtures
          [⟨some 1, some "2026-03-10T15:00:00+00:00", ⟨"1H", "First Half", none⟩,
            ⟨none, "", none⟩, ⟨none, "", none⟩, ⟨none, none⟩, ⟨none, none⟩⟩,
           ⟨some 2, some "2026-03-12T15:00:00+00:00", ⟨"NS", "Not Started", none⟩,
            ⟨none, "", none⟩, ⟨none, "", none⟩, ⟨none, none⟩, ⟨none, none⟩⟩,
           ⟨some 3, some "2026-03-01T15:00:00+00:00", ⟨"FT", "Match Finished", none⟩,
            ⟨none, "", none⟩, ⟨none, "", none⟩, ⟨some 2, some 0⟩, ⟨none, none⟩⟩,
           ⟨some 4, some "not-a-date", ⟨"NS", "Not Started", none⟩,
            ⟨none, "", none⟩, ⟨none, "", none⟩, ⟨none, none⟩, ⟨none, none⟩⟩]
          ⟨2026, 3, 10, 15, 30, 0, some 0⟩)
      = ((([⟨some 1, some "2026-03-10T15:00:00+00:00", ⟨"1H", "First Half", none⟩,
            ⟨none, "", none⟩, ⟨none, "", none⟩, ⟨none, none⟩, ⟨none, none⟩⟩,
           ⟨some 2, some "2026-03-12T15:00:00+00:00", ⟨"NS", "Not Started", none⟩,
            ⟨none, "", none⟩, ⟨none, "", none⟩, ⟨none, none⟩, ⟨none, none⟩⟩,
           ⟨some 3, some "2026-03-01T15:00:00+00:00", ⟨"FT", "Match Finished", none⟩,
            ⟨none, "", none⟩, ⟨none, "", none⟩, ⟨some 2, some 0⟩, ⟨none, none⟩⟩,
           ⟨some 4, some "not-a-date", ⟨"NS", "Not Started", none⟩,
            ⟨none, "", none⟩, ⟨none, "", none⟩, ⟨none, none⟩, ⟨none, none⟩⟩] :
          List Fixture).filter keepFixture : List Fixture) : Multiset Fixture) :=
  ⟨by decide,
   C1_partition_complete
     [⟨some 1, some "2026-03-10T15:00:00+00:00", ⟨"1H", "First Half", none⟩,
       ⟨none, "", none⟩, ⟨none, "", none⟩, ⟨none, none⟩, ⟨none, none⟩⟩,
      ⟨some 2, some "2026-03-12T15:00:00+00:00", ⟨"NS", "Not Started", none⟩,
       ⟨none, "", none⟩, ⟨none, "", none⟩, ⟨none, none⟩, ⟨none, none⟩⟩,
      ⟨some 3, some "2026-03-01T15:00:00+00:00", ⟨"FT", "Match Finished", none⟩,
       ⟨none, "", none⟩, ⟨none, "", none⟩, ⟨some 2, some 0⟩, ⟨none, none⟩⟩,
      ⟨some 4, some "not-a-date", ⟨"NS", "Not Started", none⟩,
       ⟨none, "", none⟩, ⟨none, "", none⟩, ⟨none, none⟩, ⟨none, none⟩⟩]
     ⟨2026, 3, 10, 15, 30, 0, some 0⟩ (by decide)⟩

/-! ## C5: `next_match` / `last_match` selection -/

theorem charsLe_refl : ∀ as, charsLe as as = true
  | [] => rfl
  | _ :: as => charsLe_cons.mpr (Or.inr ⟨rfl, charsLe_refl as⟩)

/-- Invariant of the partitioning fold: every fixture in the `upcoming` or
`past` bucket carried a present, parseable date (it passed the date guard). -/
theorem partitionDates_aux (now : PyDateTime) :
    ∀ (l : List Fixture) (st : PartState),
      (∀ f ∈ st.upcoming, (parsedDate f).isSome = true) →
      (∀ f ∈ st.past, (parsedDate f).isSome = true) →
      (∀ f ∈ (l.foldl (stepFixture now) st).upcoming, (parsedDate f).isSome = true) ∧
      (∀ f ∈ (l.foldl (stepFixture now) st).past, (parsedDate f).isSome = true) := by
  intro l
  induction l with
  | nil => intro st hu hp; exact ⟨hu, hp⟩
  | cons f l ih =>
    intro st hu hp
    rw [List.foldl_cons]
    by_cases hlf : isLiveFixture f = true
    · rw [stepFixture_of_live now st hlf]; exact ih _ hu hp
    · have hlf' : isLiveFixture f = false := by simpa using hlf
      rcases hpd : parsedDate f with _ | dt
      · rw [stepFixture_of_drop now st hlf' hpd]; exact ih _ hu hp
      · rcases stepFixture_of_keep now st hlf' dt hpd with hstep | hstep <;> rw [hstep]
        · refine ih _ hu ?_
          intro g hg
          rcases List.mem_append.mp hg with hg | hg
          · exact hp g hg
          · simp only [List.mem_singleton] at hg
            subst hg; simp [hpd]
        · refine ih _ ?_ hp
          intro g hg
          rcases List.mem_append.mp hg with hg | hg
          · exact hu g hg
          · simp only [List.mem_singleton] at hg
            subst hg; simp [hpd]

theorem partition_bucket_dates (fixtures : List Fixture) (now : PyDateTime) :
    (∀ f ∈ (partitionFixtures fixtures now).upcoming, (parsedDate f).isSome = true) ∧
    (∀ f ∈ (partitionFixtures fixtures now).past, (parsedDate f).isSome = true) :=
  partitionDates_aux now fixtures ⟨none, [], []⟩ (by simp) (by simp)

/-- The kickoff instant of a fixture whose date parses (0 is only a default
for the unreachable unparseable case — bucket members always parse). -/
def kickoff (f : Fixture) : Int :=
  ((parsedDate f).map (fun dt => utcSeconds (ensureAware dt))).getD 0

/-- **C5**: under the assumption that lexicographic order on the raw date
strings agrees with chronological (parsed-kickoff) order on each bucket,
`next_match` is the chronologically earliest fixture of the `upcoming` bucket
and `last_match` the chronologically latest of the `past` bucket, and each is
absent exactly when its bucket is empty. -/
theorem C5_next_earliest_last_latest (fixtures : List Fixture) (now : PyDateTime)
    (hup : ∀ f ∈ (partitionFixtures fixtures now).upcoming,
           ∀ g ∈ (partitionFixtures fixtures now).upcoming,
             (strLe (dateKey f) (dateKey g) = true ↔ kickoff f ≤ kickoff g))
    (hpa : ∀ f ∈ (partitionFixtures fixtures now).past,
           ∀ g ∈ (partitionFixtures fixtures now).past,
             (strLe (dateKey f) (dateKey g) = true ↔ kickoff f ≤ kickoff g)) :
    ((processFixtures fixtures now).next_match = none ↔
      (partitionFixtures fixtures now).upcoming = []) ∧
    (∀ g, (processFixtures fixtures now).next_match = some g →
      g ∈ (partitionFixtures fixtures now).upcoming ∧ (parsedDate g).isSome = true ∧
      ∀ f ∈ (partitionFixtures fixtures now).upcoming, kickoff g ≤ kickoff f) ∧
    ((processFixtures fixtures now).last_match = none ↔
      (partitionFixtures fixtures now).past = []) ∧
    (∀ g, (processFixtures fixtures now).last_match = some g →
      g ∈ (partitionFixtures fixtures now).past ∧ (parsedDate g).isSome = true ∧
      ∀ f ∈ (partitionFixtures fixtures now).past, kickoff f ≤ kickoff g) := by
  have hnext : (processFixtures fixtures now).next_match
      = ((partitionFixtures fixtures now).upcoming.insertionSort dateLe).head? := rfl
  have hlast : (processFixtures fixtures now).last_match
      = ((partitionFixtures fixtures now).past.insertionSort dateGe).head? := rfl
  have hpermU := List.perm_insertionSort dateLe (partitionFixtures fixtures now).upcoming
  have hpermP := List.perm_insertionSort dateGe (partitionFixtures fixtures now).past
  have hsortU := List.sorted_insertionSort dateLe (partitionFixtures fixtures now).upcoming
  have hsortP := List.sorted_insertionSort dateGe (partitionFixtures fixtures now).past
  refine ⟨?_, fun g hg => ?_, ?_, fun g hg => ?_⟩
  · rw [hnext, List.head?_eq_none_iff]
    constructor
    · intro h; rw [h] at hpermU; exact (hpermU.symm).eq_nil
    · intro h; rw [h]; rfl
  · rw [hnext] at hg
    rcases hs : (partitionFixtures fixtures now).upcoming.insertionSort dateLe with _ | ⟨a, rest⟩
    · rw [hs] at hg; exact absurd hg (by simp)
    · rw [hs] at hg
      have hag : a = g := by simpa using hg
      rw [hs, hag] at hpermU hsortU
      have hmem : g ∈ (partitionFixtures fixtures now).upcoming :=
        hpermU.mem_iff.mp (List.mem_cons_self g rest)
      refine ⟨hmem, (partition_bucket_dates fixtures now).1 g hmem, fun f hf => ?_⟩
      have hf' : f ∈ g :: rest := hpermU.mem_iff.mpr hf
      rcases List.mem_cons.mp hf' with hfg | hfr
      · subst hfg; exact le_refl _
      · exact (hup g hmem f hf).mp (List.rel_of_sorted_cons hsortU f hfr)
  · rw [hlast, List.head?_eq_none_iff]
    constructor
    · intro h; rw [h] at hpermP; exact (hpermP.symm).eq_nil
    · intro h; rw [h]; rfl
  · rw [hlast] at hg
    rcases hs : (partitionFixtures fixtures now).past.insertionSort dateGe with _ | ⟨a, rest⟩
    · rw [hs] at hg; exact absurd hg (by simp)
    · rw [hs] at hg
      have hag : a = g := by simpa using hg
      rw [hs, hag] at hpermP hsortP
      have hmem : g ∈ (partitionFixtures fixtures now).past :=
        hpermP.mem_iff.mp (List.mem_cons_self g rest)
      refine ⟨hmem, (partition_bucket_dates fixtures now).2 g hmem, fun f hf => ?_⟩
      have hf' : f ∈ g :: rest := hpermP.mem_iff.mpr hf
      rcases List.mem_cons.mp hf' with hfg | hfr
      · subst hfg; exact le_refl _
      · exact (hpa f hf g hmem).mp (List.rel_of_sorted_cons hsortP f hfr)

/-- Concrete refresh instant for the C5 witness. -/
def c5Now : PyDateTime := ⟨2026, 3, 10, 15, 30, 0, some 0⟩

def c5Up1 : Fixture :=
  ⟨some 3, some "2026-03-12T15:00:00+00:00", ⟨"NS", "Not Started", none⟩,
   ⟨none, "", none⟩, ⟨none, "", none⟩, ⟨none, none⟩, ⟨none, none⟩⟩

def c5Up2 : Fixture :=
  ⟨some 4, some "2026-03-11T15:00:00+00:00", ⟨"NS", "Not Started", none⟩,
   ⟨none, "", none⟩, ⟨none, "", none⟩, ⟨none, none⟩, ⟨none, none⟩⟩

def c5Pa1 : Fixture :=
  ⟨some 5, some "2026-03-01T15:00:00+00:00", ⟨"FT", "Match Finished", none⟩,
   ⟨none, "", none⟩, ⟨none, "", none⟩, ⟨some 1, some 0⟩, ⟨none, none⟩⟩

def c5Pa2 : Fixture :=
  ⟨some 6, some "2026-03-05T15:00:00+00:00", ⟨"FT", "Match Finished", none⟩,
   ⟨none, "", none⟩, ⟨none, "", none⟩, ⟨some 2, some 2⟩, ⟨none, none⟩⟩

def c5Fixtures : List Fixture := [c5Up1, c5Pa1, c5Up2, c5Pa2]

/-- **C5 witness**: on a concrete four-fixture list (two upcoming, two past,
lexicographic and chronological order agreeing), `next_match` is the earlier
upcoming fixture and `last_match` the later past fixture. -/
theorem C5_witness :
    (∀ f ∈ (partitionFixtures c5Fixtures c5Now).upcoming,
     ∀ g ∈ (partitionFixtures c5Fixtures c5Now).upcoming,
       (strLe (dateKey f) (dateKey g) = true ↔ kickoff f ≤ kickoff g)) ∧
    (processFixtures c5Fixtures c5Now).next_match = some c5Up2 ∧
    kickoff c5Up2 ≤ kickoff c5Up1 ∧
    (processFixtures c5Fixtures c5Now).last_match = some c5Pa2 ∧
    kickoff c5Pa1 ≤ kickoff c5Pa2 :=
  ⟨by decide, by decide,
   ((C5_next_earliest_last_latest c5Fixtures c5Now (by decide) (by decide)).2.1 c5Up2
      (by decide)).2.2 c5Up1 (by decide),
   by decide,
   ((C5_next_earliest_last_latest c5Fixtures c5Now (by decide) (by decide)).2.2.2 c5Pa2
      (by decide)).2.2 c5Pa1 (by decide)⟩
